import Mathlib

/-!
Verification of the banking data-quality audit and cleaning engine
(`data_quality_standards.py`) against its specification.

The embedding models a pandas DataFrame as a list of indexed rows (the
pandas index label paired with a field→value record) together with the
list of column names.  Cell values are modelled by the `Value` type:
nulls (NaN/None), strings, numbers and booleans.  Monetary amounts in this
dataset are integral VND, so numeric cells carry integers and threshold
comparisons are exact.  Presentational output (percentages, log lines,
sample lists) is omitted; statuses, failing-row sets and counts are kept.
-/

namespace BankingDQ

/-- A cell value of a table: null, string, number or boolean. -/
inductive Value where
  | vnull : Value
  | vstr (s : String) : Value
  | vnum (n : Int) : Value
  | vbool (b : Bool) : Value
deriving DecidableEq, Repr

/-- A record: a mapping of field names to values, as an association list. -/
abbrev Row := List (String × Value)

/-- Field access on a record; a field not present in the record reads as null
(matching pandas, where a cell missing from a row of a column is NaN, and
`row.get(field)` returns None for an absent key). -/
def getField (r : Row) (f : String) : Value :=
  match r.find? (fun p => decide (p.1 = f)) with
  | some p => p.2
  | none => Value.vnull

/-- A DataFrame: the column names plus the rows, each carrying its pandas
index label (a natural number). -/
structure DF where
  cols : List String
  rows : List (Nat × Row)
deriving DecidableEq, Repr

/-- A snapshot (`data_dict`): a mapping of table names to DataFrames, as an
association list with the dict's insertion order. -/
abbrev Snap := List (String × DF)

/-- Dict lookup on a snapshot. -/
def lookupDF (d : Snap) (t : String) : Option DF :=
  (d.find? (fun p => decide (p.1 = t))).map (fun p => p.2)

/-- Dict assignment `d[t] = df` for a key already present: replace the first
entry with that key. -/
def updateDF : Snap → String → DF → Snap
  | [], _, _ => []
  | p :: rest, t, df => if p.1 = t then (t, df) :: rest else p :: updateDF rest t df

/-- Lookup in a configuration dict such as `REQUIRED_FIELDS`. -/
def cfgLookup (cfg : List (String × List String)) (t : String) : Option (List String) :=
  (cfg.find? (fun p => decide (p.1 = t))).map (fun p => p.2)

/-- Lookup of a table's failing set in a check result's `failed_rows` dict;
a table with no entry has an empty failing set. -/
def lookupFS (fr : List (String × Finset Nat)) (t : String) : Finset Nat :=
  match fr.find? (fun p => decide (p.1 = t)) with
  | some p => p.2
  | none => ∅

/-- Status of a check: `'PASS'`, `'FAIL'` or `'SKIP'`. -/
inductive Status where
  | PASS : Status
  | FAIL : Status
  | SKIP : Status
deriving DecidableEq, Repr

/-- The result of one data-quality check: its status, its per-table failing
row sets (`failed_rows`), and the skip reason recorded in the summary of a
skipped check.  Issue lists and summary percentages are presentational and
omitted. -/
structure CheckResult where
  status : Status
  failed_rows : List (String × Finset Nat)
  reason : Option String
deriving DecidableEq

/-- `REQUIRED_FIELDS`: fields that cannot be NULL, per table. -/
def REQUIRED_FIELDS : List (String × List String) :=
  [("customer", [("full_name" : String), ("date_of_birth"), ("phone_number"),
     ("id_passport_number"), ("residential_address"), ("pin"), ("password")]),
   ("bank_account", [("customer_id"), ("account_number"), ("account_type"), ("currency")]),
   ("transaction", [("account_id"), ("transaction_type"), ("amount"), ("currency"),
     ("authentication_method")]),
   ("customer_device", [("device_identifier"), ("customer_id"), ("device_type")]),
   ("face_template", [("customer_id"), ("encrypted_face_encoding")]),
   ("authentication_log", [("customer_id"), ("device_identifier"),
     ("authentication_type"), ("status")])]

/-- `UNIQUE_FIELDS`: fields that must be unique across the table. -/
def UNIQUE_FIELDS : List (String × List String) :=
  [("customer", [("phone_number" : String), ("email"), ("tax_identification_number"),
     ("id_passport_number")]),
   ("bank_account", [("account_number")]),
   ("customer_device", [("device_identifier")]),
   ("face_template", [("customer_id")]),
   ("transaction", [("transaction_id")]),
   ("authentication_log", [("log_id")])]

/-- A foreign-key relationship `(child_table, child_field, parent_table,
parent_field)`. -/
structure FKRel where
  child : String
  cfield : String
  parent : String
  pfield : String
deriving DecidableEq, Repr

/-- Relationship 1: `face_template.customer_id → customer.customer_id`. -/
def fkRel1 : FKRel := ⟨("face_template"), ("customer_id"), ("customer"), ("customer_id")⟩

/-- Relationship 2: `bank_account.customer_id → customer.customer_id`. -/
def fkRel2 : FKRel := ⟨("bank_account"), ("customer_id"), ("customer"), ("customer_id")⟩

/-- Relationship 3: `customer_device.customer_id → customer.customer_id`. -/
def fkRel3 : FKRel := ⟨("customer_device"), ("customer_id"), ("customer"), ("customer_id")⟩

/-- Relationship 4: `transaction.account_id → bank_account.account_id`. -/
def fkRel4 : FKRel := ⟨("transaction"), ("account_id"), ("bank_account"), ("account_id")⟩

/-- Relationship 5: `authentication_log.customer_id → customer.customer_id`. -/
def fkRel5 : FKRel := ⟨("authentication_log"), ("customer_id"), ("customer"), ("customer_id")⟩

/-- Relationship 6: `authentication_log.transaction_id → transaction.transaction_id`. -/
def fkRel6 : FKRel :=
  ⟨("authentication_log"), ("transaction_id"), ("transaction"), ("transaction_id")⟩

/-- Relationship 7: `authentication_log.device_identifier →
customer_device.device_identifier`. -/
def fkRel7 : FKRel :=
  ⟨("authentication_log"), ("device_identifier"), ("customer_device"), ("device_identifier")⟩

/-- `FOREIGN_KEY_RELATIONSHIPS`, in the declared processing order. -/
def FOREIGN_KEY_RELATIONSHIPS : List FKRel :=
  [fkRel1, fkRel2, fkRel3, fkRel4, fkRel5, fkRel6, fkRel7]

/-! ## check_null_missing_values -/

/-- Index labels of the rows whose value in field `f` is null
(`df[df[field].isnull()].index.tolist()`). -/
def nullIdxs (df : DF) (f : String) : List Nat :=
  (df.rows.filter (fun r => decide (getField r.2 f = Value.vnull))).map (fun r => r.1)

/-- The failing-index set a table accumulates in `check_null_missing_values`:
the union, over the configured required fields present as columns, of the
null-row indices. -/
def nullFailedSet (df : DF) (req : List String) : Finset Nat :=
  req.foldl (fun acc f => if f ∈ df.cols then acc ∪ (nullIdxs df f).toFinset else acc) ∅

/-- The failing set of table `t` in the required-field check: empty when the
table has no configured required fields (the check's `continue`). -/
def nullFailedSetT (t : String) (df : DF) : Finset Nat :=
  match cfgLookup REQUIRED_FIELDS t with
  | some req => nullFailedSet df req
  | none => ∅

/-- `check_null_missing_values`: flags, per table with configured required
fields, the rows where a present required field is null; status is FAIL as
soon as any required field of any table has a null row, and a table enters
`failed_rows` only when its failing set is non-empty. -/
def check_null_missing_values (data : Snap) : CheckResult :=
  { status :=
      if data.any (fun p => decide (nullFailedSetT p.1 p.2 ≠ ∅))
      then Status.FAIL else Status.PASS,
    failed_rows := data.filterMap (fun p =>
      if nullFailedSetT p.1 p.2 = ∅ then none else some (p.1, nullFailedSetT p.1 p.2)),
    reason := none }

/-! ## Basic lemmas about the embedding -/

/-- Membership in a guarded left fold of finite-set unions. -/
theorem mem_foldl_union_guard {c : String → Prop} [DecidablePred c]
    (g : String → Finset Nat) (l : List String) (acc : Finset Nat) (i : Nat) :
    (i ∈ l.foldl (fun a f => if c f then a ∪ g f else a) acc) ↔
      i ∈ acc ∨ ∃ f ∈ l, c f ∧ i ∈ g f := by
  induction l generalizing acc with
  | nil => simp
  | cons f l ih =>
    simp only [List.foldl_cons]
    by_cases h : c f
    · rw [if_pos h, ih]
      simp only [Finset.mem_union, List.mem_cons]
      constructor
      · rintro (⟨ha | hg⟩ | ⟨f', hf', hcf', hi⟩)
        · exact Or.inl ha
        · exact Or.inr ⟨f, Or.inl rfl, h, hg⟩
        · exact Or.inr ⟨f', Or.inr hf', hcf', hi⟩
      · rintro (ha | ⟨f', hf' | hf', hcf', hi⟩)
        · exact Or.inl (Or.inl ha)
        · exact Or.inl (Or.inr (hf' ▸ hi))
        · exact Or.inr ⟨f', hf', hcf', hi⟩
    · rw [if_neg h, ih]
      simp only [List.mem_cons]
      constructor
      · rintro (ha | ⟨f', hf', hcf', hi⟩)
        · exact Or.inl ha
        · exact Or.inr ⟨f', Or.inr hf', hcf', hi⟩
      · rintro (ha | ⟨f', hf' | hf', hcf', hi⟩)
        · exact Or.inl ha
        · exact absurd (hf' ▸ hcf') h
        · exact Or.inr ⟨f', hf', hcf', hi⟩

/-- A row index is among the null indices of a field exactly when some row
with that index reads null at that field. -/
theorem mem_nullIdxs (df : DF) (f : String) (i : Nat) :
    i ∈ nullIdxs df f ↔ ∃ r ∈ df.rows, r.1 = i ∧ getField r.2 f = Value.vnull := by
  simp only [nullIdxs, List.mem_map, List.mem_filter, decide_eq_true_eq]
  constructor
  · rintro ⟨r, ⟨hr, hnull⟩, hi⟩
    exact ⟨r, hr, hi, hnull⟩
  · rintro ⟨r, hr, hi, hnull⟩
    exact ⟨r, ⟨hr, hnull⟩, hi⟩

/-- Characterisation of the required-field failing set of one table. -/
theorem mem_nullFailedSet (df : DF) (req : List String) (i : Nat) :
    i ∈ nullFailedSet df req ↔
      ∃ f ∈ req, f ∈ df.cols ∧ ∃ r ∈ df.rows, r.1 = i ∧ getField r.2 f = Value.vnull := by
  unfold nullFailedSet
  rw [mem_foldl_union_guard]
  simp only [Finset.not_mem_empty, false_or, List.mem_toFinset, mem_nullIdxs]

/-- Dict lookup at the head key. -/
theorem lookupDF_cons_pos (s t : String) (df : DF) (l : Snap) (h : s = t) :
    lookupDF ((s, df) :: l) t = some df := by
  unfold lookupDF
  rw [List.find?_cons_of_pos _ (by simpa using h)]
  rfl

/-- Dict lookup skips a non-matching head. -/
theorem lookupDF_cons_neg (s t : String) (df : DF) (l : Snap) (h : s ≠ t) :
    lookupDF ((s, df) :: l) t = lookupDF l t := by
  unfold lookupDF
  rw [List.find?_cons_of_neg _ (by simpa using h)]

/-- Failing-set lookup at the head key. -/
theorem lookupFS_cons_pos (s t : String) (A : Finset Nat) (l : List (String × Finset Nat))
    (h : s = t) : lookupFS ((s, A) :: l) t = A := by
  unfold lookupFS
  rw [List.find?_cons_of_pos _ (by simpa using h)]

/-- Failing-set lookup skips a non-matching head. -/
theorem lookupFS_cons_neg (s t : String) (A : Finset Nat) (l : List (String × Finset Nat))
    (h : s ≠ t) : lookupFS ((s, A) :: l) t = lookupFS l t := by
  unfold lookupFS
  rw [List.find?_cons_of_neg _ (by simpa using h)]

/-- A key absent from an association list is absent from a key-preserving
`filterMap` of it, so its failing-set lookup is empty. -/
theorem lookupFS_filterMap_not_mem (S : String → DF → Finset Nat) (data : Snap) (t : String)
    (ht : t ∉ data.map Prod.fst) :
    lookupFS (data.filterMap (fun p =>
      if S p.1 p.2 = ∅ then none else some (p.1, S p.1 p.2))) t = ∅ := by
  induction data with
  | nil => rfl
  | cons p rest ih =>
    simp only [List.map_cons, List.mem_cons, not_or] at ht
    simp only [List.filterMap_cons]
    by_cases h : S p.1 p.2 = ∅
    · rw [if_pos h]
      exact ih ht.2
    · rw [if_neg h]
      rw [lookupFS_cons_neg _ _ _ _ (fun hc => ht.1 hc.symm)]
      exact ih ht.2

/-- Looking up a table's failing set in a key-preserving `filterMap` of the
snapshot recovers that table's computed set, for snapshots with distinct
table names (a Python dict cannot repeat keys). -/
theorem lookupFS_filterMap (S : String → DF → Finset Nat) (data : Snap) (t : String) (df : DF)
    (hnd : (data.map Prod.fst).Nodup) (hdf : lookupDF data t = some df) :
    lookupFS (data.filterMap (fun p =>
      if S p.1 p.2 = ∅ then none else some (p.1, S p.1 p.2))) t = S t df := by
  induction data with
  | nil => simp [lookupDF] at hdf
  | cons p rest ih =>
    simp only [List.map_cons, List.nodup_cons] at hnd
    obtain ⟨p1, p2⟩ := p
    by_cases hpt : p1 = t
    · have hdf' : p2 = df := by
        rw [lookupDF_cons_pos _ _ _ _ hpt] at hdf
        exact Option.some_injective _ hdf
      simp only [List.filterMap_cons]
      by_cases h : S p1 p2 = ∅
      · rw [if_pos h]
        rw [lookupFS_filterMap_not_mem S rest t (hpt ▸ hnd.1)]
        rw [← hpt, ← hdf', h]
      · rw [if_neg h]
        rw [lookupFS_cons_pos _ _ _ _ hpt]
        rw [← hpt, ← hdf']
    · have hdf' : lookupDF rest t = some df := by
        rw [lookupDF_cons_neg _ _ _ _ hpt] at hdf
        exact hdf
      simp only [List.filterMap_cons]
      by_cases h : S p1 p2 = ∅
      · rw [if_pos h]
        exact ih hnd.2 hdf'
      · rw [if_neg h]
        rw [lookupFS_cons_neg _ _ _ _ hpt]
        exact ih hnd.2 hdf'

/-- The failing set of one table in the required-field check is non-empty
exactly when the table is configured and some present required field is null
in some row. -/
theorem nullFailedSetT_ne_empty (s : String) (d : DF) :
    nullFailedSetT s d ≠ ∅ ↔
      ∃ fs, cfgLookup REQUIRED_FIELDS s = some fs ∧
        ∃ r ∈ d.rows, ∃ f ∈ fs, f ∈ d.cols ∧ getField r.2 f = Value.vnull := by
  unfold nullFailedSetT
  cases h : cfgLookup REQUIRED_FIELDS s with
  | none => simp
  | some fs =>
    simp only [Option.some.injEq]
    rw [← Finset.nonempty_iff_ne_empty]
    constructor
    · rintro ⟨i, hi⟩
      rw [mem_nullFailedSet] at hi
      obtain ⟨f, hf, hcol, r, hr, _, hnull⟩ := hi
      exact ⟨fs, rfl, r, hr, f, hf, hcol, hnull⟩
    · rintro ⟨fs2, hfs2, r, hr, f, hf, hcol, hnull⟩
      subst hfs2
      exact ⟨r.1, (mem_nullFailedSet d fs r.1).mpr ⟨f, hf, hcol, r, hr, rfl, hnull⟩⟩

/-- C2: for a table with configured required fields, a row index is in that
table's failing set of `check_null_missing_values` iff some configured
required field that is present as a column is null in that row; and the
check's status is FAIL iff some table has at least one such null row. -/
theorem check_null_flags_iff_required_null (data : Snap) (t : String) (df : DF)
    (req : List String) (hnd : (data.map Prod.fst).Nodup)
    (hdf : lookupDF data t = some df) (hreq : cfgLookup REQUIRED_FIELDS t = some req) :
    (∀ i : Nat, i ∈ lookupFS (check_null_missing_values data).failed_rows t ↔
       ∃ r ∈ df.rows, r.1 = i ∧ ∃ f ∈ req, f ∈ df.cols ∧ getField r.2 f = Value.vnull)
    ∧ ((check_null_missing_values data).status = Status.FAIL ↔
       ∃ p ∈ data, ∃ fs, cfgLookup REQUIRED_FIELDS p.1 = some fs ∧
         ∃ r ∈ p.2.rows, ∃ f ∈ fs, f ∈ p.2.cols ∧ getField r.2 f = Value.vnull) := by
  constructor
  · intro i
    have hfr : lookupFS (check_null_missing_values data).failed_rows t
        = nullFailedSetT t df := lookupFS_filterMap nullFailedSetT data t df hnd hdf
    rw [hfr]
    unfold nullFailedSetT
    rw [hreq]
    rw [mem_nullFailedSet]
    constructor
    · rintro ⟨f, hf, hcol, r, hr, hi, hnull⟩
      exact ⟨r, hr, hi, f, hf, hcol, hnull⟩
    · rintro ⟨r, hr, hi, f, hf, hcol, hnull⟩
      exact ⟨f, hf, hcol, r, hr, hi, hnull⟩
  · have hif : (check_null_missing_values data).status = Status.FAIL ↔
        data.any (fun p => decide (nullFailedSetT p.1 p.2 ≠ ∅)) = true := by
      unfold check_null_missing_values
      by_cases h : data.any (fun p => decide (nullFailedSetT p.1 p.2 ≠ ∅)) = true
      · simp [h]
      · simp [h]
    rw [hif, List.any_eq_true]
    constructor
    · rintro ⟨p, hp, hne⟩
      rw [decide_eq_true_eq, nullFailedSetT_ne_empty] at hne
      obtain ⟨fs, hfs, r, hr, f, hf, hcol, hnull⟩ := hne
      exact ⟨p, hp, fs, hfs, r, hr, f, hf, hcol, hnull⟩
    · rintro ⟨p, hp, fs, hfs, r, hr, f, hf, hcol, hnull⟩
      refine ⟨p, hp, ?_⟩
      rw [decide_eq_true_eq, nullFailedSetT_ne_empty]
      exact ⟨fs, hfs, r, hr, f, hf, hcol, hnull⟩

/-- A two-row customer table whose first row has a null required phone
number. -/
def cnDemoDF : DF :=
  { cols := [("phone_number"), ("full_name")],
    rows := [(0, [(("phone_number"), Value.vnull), (("full_name"), Value.vstr ("A"))]),
             (1, [(("phone_number"), Value.vstr ("0901234567")),
                  (("full_name"), Value.vstr ("B"))])] }

/-- Demonstration snapshot for the required-field check. -/
def cnDemoSnap : Snap := [(("customer"), cnDemoDF)]

/-- Witness for C2: on a concrete customer table whose row 0 has a null
phone number, row 0 is flagged and the check FAILs. -/
theorem check_null_flags_iff_required_null_witness :
    (0 : Nat) ∈ lookupFS (check_null_missing_values cnDemoSnap).failed_rows ("customer") ∧
      (check_null_missing_values cnDemoSnap).status = Status.FAIL := by
  have h := check_null_flags_iff_required_null cnDemoSnap ("customer") cnDemoDF
    [("full_name"), ("date_of_birth"), ("phone_number"), ("id_passport_number"),
     ("residential_address"), ("pin"), ("password")]
    (by decide) (by decide) (by decide)
  refine ⟨(h.1 0).mpr (by decide), h.2.mpr ?_⟩
  exact ⟨(("customer"), cnDemoDF), by decide,
    [("full_name"), ("date_of_birth"), ("phone_number"), ("id_passport_number"),
     ("residential_address"), ("pin"), ("password")], by decide, by decide⟩

/-! ## check_uniqueness_constraints_with_database -/

/-- An external uniqueness oracle: for a table and a field, the distinct
non-null values already committed in the database.  The check receives
`none` when no database connection could be established. -/
abbrev Oracle := String → String → List Value

/-- The non-null rows of a field (`df[df[field].notna()]`). -/
def nonNullRows (df : DF) (f : String) : List (Nat × Row) :=
  df.rows.filter (fun r => decide (getField r.2 f ≠ Value.vnull))

/-- Index labels marked by `duplicated(keep=False)` on the non-null values
of a field: every occurrence of a value that occurs at least twice. -/
def internalDuplicateIdxs (df : DF) (f : String) : List Nat :=
  ((nonNullRows df f).filter (fun r =>
    decide (2 ≤ ((nonNullRows df f).filter
      (fun s => decide (getField s.2 f = getField r.2 f))).length))).map (fun r => r.1)

/-- Index labels of new rows whose value already exists in the database. -/
def dbConflictIdxs (df : DF) (f : String) (existing : List Value) : List Nat :=
  ((nonNullRows df f).filter (fun r => decide (getField r.2 f ∈ existing))).map (fun r => r.1)

/-- `all_failed_indices` for one field: the set union of internal duplicates
and database conflicts (`list(set(internal_duplicate_indices + database_conflicts))`,
with no conflicts when the database is unavailable). -/
def uniqFieldFailed (df : DF) (f : String) (db : Option Oracle) (t : String) : Finset Nat :=
  (internalDuplicateIdxs df f).toFinset ∪
    (match db with
     | some o => (dbConflictIdxs df f (o t f)).toFinset
     | none => (∅ : Finset Nat))

/-- The issue's `duplicate_count` for one field: the number of distinct
failing indices. -/
def uniqDuplicateCount (df : DF) (f : String) (db : Option Oracle) (t : String) : Nat :=
  (uniqFieldFailed df f db t).card

/-- The failing set of one table in the uniqueness check: the union over the
configured unique fields present as columns of each field's failing set. -/
def uniqFailedSetT (db : Option Oracle) (t : String) (df : DF) : Finset Nat :=
  match cfgLookup UNIQUE_FIELDS t with
  | some flds =>
      flds.foldl (fun acc f => if f ∈ df.cols then acc ∪ uniqFieldFailed df f db t else acc) ∅
  | none => ∅

/-- `check_uniqueness_constraints_with_database`: per table with configured
unique fields, flags all internal duplicate occurrences plus any values that
already exist in the database; FAIL as soon as any field has a violation. -/
def check_uniqueness_constraints_with_database (data : Snap) (db : Option Oracle) :
    CheckResult :=
  { status :=
      if data.any (fun p => decide (uniqFailedSetT db p.1 p.2 ≠ ∅))
      then Status.FAIL else Status.PASS,
    failed_rows := data.filterMap (fun p =>
      if uniqFailedSetT db p.1 p.2 = ∅ then none else some (p.1, uniqFailedSetT db p.1 p.2)),
    reason := none }

/-- C3: the uniqueness check flags every occurrence of an internally
duplicated non-null value — if a non-null value appears in two or more rows
of a configured unique field, each such row's index is in the failing set,
whatever the database oracle contributes. -/
theorem check_uniqueness_flags_all_occurrences (data : Snap) (db : Option Oracle)
    (t : String) (df : DF) (flds : List String) (f : String) (r : Nat × Row)
    (hnd : (data.map Prod.fst).Nodup) (hdf : lookupDF data t = some df)
    (hflds : cfgLookup UNIQUE_FIELDS t = some flds) (hf : f ∈ flds) (hcol : f ∈ df.cols)
    (hr : r ∈ df.rows) (hnn : getField r.2 f ≠ Value.vnull)
    (hdup : 2 ≤ (df.rows.filter
      (fun s => decide (getField s.2 f = getField r.2 f))).length) :
    r.1 ∈ lookupFS (check_uniqueness_constraints_with_database data db).failed_rows t := by
  have hfr : lookupFS (check_uniqueness_constraints_with_database data db).failed_rows t
      = uniqFailedSetT db t df := lookupFS_filterMap (uniqFailedSetT db) data t df hnd hdf
  rw [hfr]
  unfold uniqFailedSetT
  rw [hflds]
  rw [mem_foldl_union_guard]
  refine Or.inr ⟨f, hf, hcol, ?_⟩
  unfold uniqFieldFailed
  rw [Finset.mem_union]
  left
  rw [List.mem_toFinset]
  unfold internalDuplicateIdxs
  rw [List.mem_map]
  refine ⟨r, ?_, rfl⟩
  rw [List.mem_filter]
  have hmem : r ∈ nonNullRows df f := by
    unfold nonNullRows
    rw [List.mem_filter]
    exact ⟨hr, by simpa using hnn⟩
  refine ⟨hmem, ?_⟩
  rw [decide_eq_true_eq]
  have hsame : (nonNullRows df f).filter
      (fun s => decide (getField s.2 f = getField r.2 f))
      = df.rows.filter (fun s => decide (getField s.2 f = getField r.2 f)) := by
    unfold nonNullRows
    rw [List.filter_filter]
    apply List.filter_congr
    intro s _
    by_cases hs : getField s.2 f = getField r.2 f
    · simp [hs, hnn]
    · simp [hs]
  rw [hsame]
  exact hdup

/-- A bank-account table with two rows sharing the same account number. -/
def uqDemoDF : DF :=
  { cols := [("account_number")],
    rows := [(0, [(("account_number"), Value.vstr ("280100000000000001"))]),
             (1, [(("account_number"), Value.vstr ("280100000000000001"))])] }

/-- Demonstration snapshot for the uniqueness check. -/
def uqDemoSnap : Snap := [(("bank_account"), uqDemoDF)]

/-- Witness for C3 (Scenario B): with two rows sharing one account number
and no database, both rows are flagged, `duplicate_count` is 2 and the
check FAILs. -/
theorem check_uniqueness_flags_all_occurrences_witness :
    (0 : Nat) ∈ lookupFS
        (check_uniqueness_constraints_with_database uqDemoSnap none).failed_rows
        ("bank_account") ∧
      (1 : Nat) ∈ lookupFS
        (check_uniqueness_constraints_with_database uqDemoSnap none).failed_rows
        ("bank_account") ∧
      uniqDuplicateCount uqDemoDF ("account_number") none ("bank_account") = 2 ∧
      (check_uniqueness_constraints_with_database uqDemoSnap none).status = Status.FAIL := by
  refine ⟨?_, ?_, by decide, by decide⟩
  · exact check_uniqueness_flags_all_occurrences uqDemoSnap none ("bank_account") uqDemoDF
      [("account_number")] ("account_number")
      (0, [(("account_number"), Value.vstr ("280100000000000001"))])
      (by decide) (by decide) (by decide) (by decide) (by decide) (by decide)
      (by decide) (by decide)
  · exact check_uniqueness_flags_all_occurrences uqDemoSnap none ("bank_account") uqDemoDF
      [("account_number")] ("account_number")
      (1, [(("account_number"), Value.vstr ("280100000000000001"))])
      (by decide) (by decide) (by decide) (by decide) (by decide) (by decide)
      (by decide) (by decide)

/-! ## aggregate_failed_rows -/

/-- `aggregate_failed_rows`: the consolidated failing set of a table is the
set union, over all check results, of the failing set each check reported
for that table (the code's per-table `set.update`; the final conversion to
a sorted list is presentational). -/
def aggregate_failed_rows (checks : List CheckResult) (t : String) : Finset Nat :=
  checks.foldl (fun acc c => acc ∪ lookupFS c.failed_rows t) ∅

/-- Membership in a left fold of finite-set unions. -/
theorem mem_foldl_union {α : Type} (g : α → Finset Nat) (l : List α)
    (acc : Finset Nat) (i : Nat) :
    (i ∈ l.foldl (fun a c => a ∪ g c) acc) ↔ i ∈ acc ∨ ∃ c ∈ l, i ∈ g c := by
  induction l generalizing acc with
  | nil => simp
  | cons c l ih =>
    rw [List.foldl_cons, ih]
    simp only [Finset.mem_union, List.mem_cons]
    constructor
    · rintro (⟨ha | hg⟩ | ⟨c', hc', hi⟩)
      · exact Or.inl ha
      · exact Or.inr ⟨c, Or.inl rfl, hg⟩
      · exact Or.inr ⟨c', Or.inr hc', hi⟩
    · rintro (ha | ⟨c', hc' | hc', hi⟩)
      · exact Or.inl (Or.inl ha)
      · exact Or.inl (Or.inr (hc' ▸ hi))
      · exact Or.inr ⟨c', hc', hi⟩

/-- The size of a fold of unions is at most the sum of the sizes. -/
theorem card_foldl_union_le {α : Type} (g : α → Finset Nat) (l : List α)
    (acc : Finset Nat) :
    (l.foldl (fun a c => a ∪ g c) acc).card ≤
      acc.card + (l.map (fun c => (g c).card)).sum := by
  induction l generalizing acc with
  | nil => simp
  | cons c l ih =>
    rw [List.foldl_cons, List.map_cons, List.sum_cons]
    calc (l.foldl (fun a c => a ∪ g c) (acc ∪ g c)).card
        ≤ (acc ∪ g c).card + (l.map (fun c => (g c).card)).sum := ih (acc ∪ g c)
      _ ≤ acc.card + (g c).card + (l.map (fun c => (g c).card)).sum := by
          exact Nat.add_le_add_right (Finset.card_union_le acc (g c)) _
      _ = acc.card + ((g c).card + (l.map (fun c => (g c).card)).sum) := by
          rw [Nat.add_assoc]

/-- Two finite sets are disjoint exactly when the size of their union is
the sum of their sizes. -/
theorem disjoint_iff_card_union (s u : Finset Nat) :
    (s ∪ u).card = s.card + u.card ↔ Disjoint s u := by
  constructor
  · intro h
    have hiu : (s ∪ u).card + (s ∩ u).card = s.card + u.card :=
      Finset.card_union_add_card_inter s u
    rw [h] at hiu
    have : (s ∩ u).card = 0 := by omega
    rw [Finset.card_eq_zero] at this
    exact Finset.disjoint_iff_inter_eq_empty.mpr this
  · intro h
    have hiu : (s ∪ u).card + (s ∩ u).card = s.card + u.card :=
      Finset.card_union_add_card_inter s u
    rw [Finset.disjoint_iff_inter_eq_empty.mp h] at hiu
    simpa using hiu

/-- The size of a fold of unions equals the sum of the sizes exactly when
the accumulator and the folded sets are pairwise disjoint. -/
theorem card_foldl_union_eq_iff {α : Type} (g : α → Finset Nat) (l : List α)
    (acc : Finset Nat) :
    ((l.foldl (fun a c => a ∪ g c) acc).card =
        acc.card + (l.map (fun c => (g c).card)).sum) ↔
      (acc :: l.map g).Pairwise Disjoint := by
  induction l generalizing acc with
  | nil => simp
  | cons c l ih =>
    rw [List.foldl_cons, List.map_cons, List.sum_cons]
    have h1 := card_foldl_union_le g l (acc ∪ g c)
    have h2 : (acc ∪ g c).card ≤ acc.card + (g c).card := Finset.card_union_le acc (g c)
    constructor
    · intro heq
      have hdisj : (acc ∪ g c).card = acc.card + (g c).card := by omega
      have hrest : (l.foldl (fun a c => a ∪ g c) (acc ∪ g c)).card =
          (acc ∪ g c).card + (l.map (fun c => (g c).card)).sum := by omega
      have hpw := (ih (acc ∪ g c)).mp hrest
      rw [List.pairwise_cons] at hpw
      rw [List.map_cons, List.pairwise_cons]
      obtain ⟨hhead, htail⟩ := hpw
      have hd : Disjoint acc (g c) := (disjoint_iff_card_union acc (g c)).mp hdisj
      refine ⟨?_, ?_⟩
      · intro x hx
        rcases List.mem_cons.mp hx with hx1 | hx2
        · exact hx1 ▸ hd
        · exact (Finset.disjoint_union_left.mp (hhead x hx2)).1
      · rw [List.pairwise_cons]
        refine ⟨?_, htail⟩
        intro x hx
        exact (Finset.disjoint_union_left.mp (hhead x hx)).2
    · intro hpw
      rw [List.pairwise_cons] at hpw
      obtain ⟨hhead, htail⟩ := hpw
      rw [List.map_cons, List.pairwise_cons] at htail
      obtain ⟨hchead, htail2⟩ := htail
      rw [List.map_cons] at hhead
      have hd : Disjoint acc (g c) := hhead (g c) (List.mem_cons_self _ _)
      have hdisj : (acc ∪ g c).card = acc.card + (g c).card :=
        (disjoint_iff_card_union acc (g c)).mpr hd
      have hrest : (l.foldl (fun a c => a ∪ g c) (acc ∪ g c)).card =
          (acc ∪ g c).card + (l.map (fun c => (g c).card)).sum := by
        apply (ih (acc ∪ g c)).mpr
        rw [List.pairwise_cons]
        refine ⟨?_, htail2⟩
        intro x hx
        rw [Finset.disjoint_union_left]
        exact ⟨hhead x (List.mem_cons_of_mem _ hx), hchead x hx⟩
      omega

/-- C4: a table's aggregated failing set is the set union of every check's
failing set for that table (so each row identifier appears at most once in
it); its size is at most the sum of the per-check failing-set sizes, with
equality exactly when no row is flagged by more than one check (the
per-check failing sets are pairwise disjoint). -/
theorem aggregate_failed_rows_is_union (checks : List CheckResult) (t : String) :
    (∀ i : Nat, i ∈ aggregate_failed_rows checks t ↔
        ∃ c ∈ checks, i ∈ lookupFS c.failed_rows t)
    ∧ (aggregate_failed_rows checks t).card ≤
        (checks.map (fun c => (lookupFS c.failed_rows t).card)).sum
    ∧ ((aggregate_failed_rows checks t).card =
          (checks.map (fun c => (lookupFS c.failed_rows t).card)).sum ↔
        (checks.map (fun c => lookupFS c.failed_rows t)).Pairwise Disjoint) := by
  refine ⟨?_, ?_, ?_⟩
  · intro i
    unfold aggregate_failed_rows
    rw [mem_foldl_union]
    simp
  · have h := card_foldl_union_le (fun c => lookupFS c.failed_rows t) checks ∅
    simpa [aggregate_failed_rows] using h
  · have h := card_foldl_union_eq_iff (fun c => lookupFS c.failed_rows t) checks ∅
    rw [List.pairwise_cons] at h
    simp only [Finset.card_empty, Nat.zero_add] at h
    unfold aggregate_failed_rows
    rw [h]
    constructor
    · intro hp
      exact hp.2
    · intro hp
      exact ⟨fun x _ => Finset.disjoint_empty_left x, hp⟩

/-! ## Cleaning: handle_foreign_key_dependencies and clean_dataframes_by_failed_rows -/

/-- The surviving non-null key values of a parent table's key column
(`set(result_data[parent_table][parent_field].dropna())`). -/
def parentKeys (pdf : DF) (pf : String) : List Value :=
  (pdf.rows.map (fun r => getField r.2 pf)).filter (fun v => decide (v ≠ Value.vnull))

/-- The cascade's keep condition for a child row (`isna() | isin(valid_parent_keys)`):
null foreign keys are kept, non-null ones must be among the parent keys. -/
def keepRow (keys : List Value) (cf : String) (row : Row) : Bool :=
  decide (getField row cf = Value.vnull) || decide (getField row cf ∈ keys)

/-- `reset_index(drop=True)`: re-sequence the rows to dense indices 0,1,2,…. -/
def reindex (rows : List (Nat × Row)) : List (Nat × Row) :=
  (rows.map Prod.snd).enum

/-- The child table produced by one cascade step: the rows that satisfy the
keep condition, re-indexed; the columns are unchanged. -/
def fkFilter (cdf pdf : DF) (rel : FKRel) : DF :=
  { cdf with rows := reindex (cdf.rows.filter
      (fun r => keepRow (parentKeys pdf rel.pfield) rel.cfield r.2)) }

/-- One iteration of the loop in `handle_foreign_key_dependencies`: a
relationship whose tables and fields are present filters the child table
against the parent's surviving keys; otherwise the snapshot is unchanged. -/
def fkStep (d : Snap) (rel : FKRel) : Snap :=
  match lookupDF d rel.child with
  | none => d
  | some cdf =>
    match lookupDF d rel.parent with
    | none => d
    | some pdf =>
      if rel.pfield ∈ pdf.cols then
        if rel.cfield ∈ cdf.cols then updateDF d rel.child (fkFilter cdf pdf rel)
        else d
      else d

/-- `handle_foreign_key_dependencies`: process every declared relationship
once, in the declared order. -/
def handle_foreign_key_dependencies (d : Snap) : Snap :=
  FOREIGN_KEY_RELATIONSHIPS.foldl fkStep d

/-- `df.drop(index=failed_indices, errors='ignore').reset_index(drop=True)`. -/
def dropFailed (df : DF) (idxs : List Nat) : DF :=
  { df with rows := reindex (df.rows.filter (fun r => decide (r.1 ∉ idxs))) }

/-- Lookup of a table's failing list in the aggregated failing dict. -/
def lookupFailed (failed : List (String × List Nat)) (t : String) : Option (List Nat) :=
  (failed.find? (fun p => decide (p.1 = t))).map (fun p => p.2)

/-- One table of the per-table pass: a table with an entry in the failing
dict drops those index labels and resets its index; a table without one is
copied unchanged. -/
def cleanTableFor (failed : List (String × List Nat)) (t : String) (df : DF) : DF :=
  match lookupFailed failed t with
  | some idxs => dropFailed df idxs
  | none => df

/-- The per-table pass of `clean_dataframes_by_failed_rows`. -/
def cleanTables (data : Snap) (failed : List (String × List Nat)) : Snap :=
  data.map (fun p => (p.1, cleanTableFor failed p.1 p.2))

/-- One table's entry of the cleaning summary (rounded percentage fields are
presentational and omitted). -/
structure TableSummary where
  original_count : Nat
  removed_count : Nat
  final_count : Nat
  final_count_after_fk_cleanup : Nat
  total_removed : Nat
deriving DecidableEq, Repr

/-- One table's cleaning summary.  `removed_count` is the length of the
supplied failing list (`len(failed_indices)`), not the number of rows
actually dropped; `final_count` is the row count before the cascade, and
the after-cascade fields are filled in from the final snapshot. -/
def cleanSummaryFor (data : Snap) (failed : List (String × List Nat))
    (t : String) (df : DF) : TableSummary :=
  let removedN := match lookupFailed failed t with
    | some idxs => idxs.length
    | none => 0
  let cleanedDf := match lookupFailed failed t with
    | some idxs => dropFailed df idxs
    | none => df
  let finalN := cleanedDf.rows.length
  let afterFk :=
    match lookupDF (handle_foreign_key_dependencies (cleanTables data failed)) t with
    | some d2 => d2.rows.length
    | none => finalN
  { original_count := df.rows.length, removed_count := removedN, final_count := finalN,
    final_count_after_fk_cleanup := afterFk, total_removed := removedN + (finalN - afterFk) }

/-- `clean_dataframes_by_failed_rows`: drop each table's failing rows, run
the foreign-key cascade, and report per-table counts. -/
def clean_dataframes_by_failed_rows (data : Snap) (failed : List (String × List Nat)) :
    Snap × List (String × TableSummary) :=
  (handle_foreign_key_dependencies (cleanTables data failed),
   data.map (fun p => (p.1, cleanSummaryFor data failed p.1 p.2)))

/-! ## Lemmas about dict update and re-indexing -/

/-- Updating a key and looking it up returns the new table when the key was
present. -/
theorem lookupDF_updateDF_self (d : Snap) (t : String) (df : DF) :
    lookupDF (updateDF d t df) t = (lookupDF d t).map (fun _ => df) := by
  induction d with
  | nil => rfl
  | cons p rest ih =>
    obtain ⟨p1, p2⟩ := p
    by_cases h : p1 = t
    · simp only [updateDF, if_pos h]
      rw [lookupDF_cons_pos _ _ _ _ rfl, lookupDF_cons_pos _ _ _ _ h]
      rfl
    · simp only [updateDF, if_neg h]
      rw [lookupDF_cons_neg _ _ _ _ h, lookupDF_cons_neg _ _ _ _ h]
      exact ih

/-- Updating one key leaves the lookup of any other key unchanged. -/
theorem lookupDF_updateDF_ne (d : Snap) (s t : String) (df : DF) (h : s ≠ t) :
    lookupDF (updateDF d s df) t = lookupDF d t := by
  induction d with
  | nil => rfl
  | cons p rest ih =>
    obtain ⟨p1, p2⟩ := p
    by_cases hp : p1 = s
    · simp only [updateDF, if_pos hp]
      rw [lookupDF_cons_neg _ _ _ _ h, lookupDF_cons_neg _ _ _ _ (hp ▸ h)]
    · simp only [updateDF, if_neg hp]
      by_cases hpt : p1 = t
      · rw [lookupDF_cons_pos _ _ _ _ hpt, lookupDF_cons_pos _ _ _ _ hpt]
      · rw [lookupDF_cons_neg _ _ _ _ hpt, lookupDF_cons_neg _ _ _ _ hpt]
        exact ih

/-- Re-assigning a key the table it already maps to changes nothing. -/
theorem updateDF_self_id (d : Snap) (t : String) (df : DF)
    (h : lookupDF d t = some df) : updateDF d t df = d := by
  induction d with
  | nil => rfl
  | cons p rest ih =>
    obtain ⟨p1, p2⟩ := p
    by_cases hp : p1 = t
    · rw [lookupDF_cons_pos _ _ _ _ hp] at h
      have h2 : p2 = df := Option.some_injective _ h
      subst hp
      subst h2
      simp [updateDF]
    · rw [lookupDF_cons_neg _ _ _ _ hp] at h
      simp only [updateDF, if_neg hp]
      rw [ih h]

/-- If re-assigning a key produces the same dict, the assigned table is the
one that key maps to. -/
theorem updateDF_eq_self_inv (d : Snap) (t : String) (df df0 : DF)
    (heq : updateDF d t df = d) (h : lookupDF d t = some df0) : df = df0 := by
  induction d with
  | nil => simp [lookupDF] at h
  | cons p rest ih =>
    obtain ⟨p1, p2⟩ := p
    by_cases hp : p1 = t
    · rw [lookupDF_cons_pos _ _ _ _ hp] at h
      have h2 : p2 = df0 := Option.some_injective _ h
      simp only [updateDF, if_pos hp] at heq
      have := (Prod.mk.injEq _ _ _ _).mp (List.cons_eq_cons.mp heq).1
      rw [this.2, h2]
    · rw [lookupDF_cons_neg _ _ _ _ hp] at h
      simp only [updateDF, if_neg hp] at heq
      exact ih (List.cons_eq_cons.mp heq).2 h

/-- Re-indexing is idempotent. -/
theorem reindex_reindex (rows : List (Nat × Row)) :
    reindex (reindex rows) = reindex rows := by
  unfold reindex
  rw [List.enum_map_snd]

/-- The record of a re-indexed entry is a record of the original list. -/
theorem snd_mem_of_mem_reindex (rows : List (Nat × Row)) (r : Nat × Row)
    (h : r ∈ reindex rows) : r.2 ∈ rows.map Prod.snd := by
  unfold reindex at h
  rw [List.mem_enum_iff_getElem?] at h
  exact List.getElem?_mem h

/-- Re-indexing preserves the number of rows. -/
theorem length_reindex (rows : List (Nat × Row)) :
    (reindex rows).length = rows.length := by
  unfold reindex
  rw [List.enum_length, List.length_map]

/-! ## The cascade pass settles every relationship -/

/-- A cascade step with an absent child table changes nothing. -/
theorem fkStep_eq_none_child (d : Snap) (rel : FKRel)
    (hc : lookupDF d rel.child = none) : fkStep d rel = d := by
  unfold fkStep
  simp only [hc]

/-- A cascade step with an absent parent table changes nothing. -/
theorem fkStep_eq_none_parent (d : Snap) (rel : FKRel) (cdf : DF)
    (hc : lookupDF d rel.child = some cdf) (hp : lookupDF d rel.parent = none) :
    fkStep d rel = d := by
  unfold fkStep
  simp only [hc, hp]

/-- A cascade step with the parent key column missing changes nothing. -/
theorem fkStep_eq_no_pf (d : Snap) (rel : FKRel) (cdf pdf : DF)
    (hc : lookupDF d rel.child = some cdf) (hp : lookupDF d rel.parent = some pdf)
    (hpf : rel.pfield ∉ pdf.cols) : fkStep d rel = d := by
  unfold fkStep
  simp only [hc, hp]
  rw [if_neg hpf]

/-- A cascade step with the child foreign-key column missing changes
nothing. -/
theorem fkStep_eq_no_cf (d : Snap) (rel : FKRel) (cdf pdf : DF)
    (hc : lookupDF d rel.child = some cdf) (hp : lookupDF d rel.parent = some pdf)
    (hpf : rel.pfield ∈ pdf.cols) (hcf : rel.cfield ∉ cdf.cols) : fkStep d rel = d := by
  unfold fkStep
  simp only [hc, hp]
  rw [if_pos hpf, if_neg hcf]

/-- A cascade step with both tables and both fields present filters the
child table. -/
theorem fkStep_eq_active (d : Snap) (rel : FKRel) (cdf pdf : DF)
    (hc : lookupDF d rel.child = some cdf) (hp : lookupDF d rel.parent = some pdf)
    (hpf : rel.pfield ∈ pdf.cols) (hcf : rel.cfield ∈ cdf.cols) :
    fkStep d rel = updateDF d rel.child (fkFilter cdf pdf rel) := by
  unfold fkStep
  simp only [hc, hp]
  rw [if_pos hpf, if_pos hcf]

/-- A cascade step leaves every table other than its child unchanged. -/
theorem fkStep_lookup_ne (d : Snap) (rel : FKRel) (t : String) (h : t ≠ rel.child) :
    lookupDF (fkStep d rel) t = lookupDF d t := by
  cases hc : lookupDF d rel.child with
  | none => rw [fkStep_eq_none_child d rel hc]
  | some cdf =>
    cases hp : lookupDF d rel.parent with
    | none => rw [fkStep_eq_none_parent d rel cdf hc hp]
    | some pdf =>
      by_cases hpf : rel.pfield ∈ pdf.cols
      · by_cases hcf : rel.cfield ∈ cdf.cols
        · rw [fkStep_eq_active d rel cdf pdf hc hp hpf hcf]
          exact lookupDF_updateDF_ne d rel.child t _ (fun he => h he.symm)
        · rw [fkStep_eq_no_cf d rel cdf pdf hc hp hpf hcf]
      · rw [fkStep_eq_no_pf d rel cdf pdf hc hp hpf]

/-- Any table of a stepped snapshot is the same-named input table, either
unchanged or — for the relationship's child when the step fired — filtered
against the parent's surviving keys. -/
theorem fkStep_lookup_inv (d : Snap) (rel : FKRel) (t : String) (df' : DF)
    (h : lookupDF (fkStep d rel) t = some df') :
    lookupDF d t = some df' ∨
      (t = rel.child ∧ ∃ cdf pdf, lookupDF d rel.child = some cdf ∧
        lookupDF d rel.parent = some pdf ∧ rel.pfield ∈ pdf.cols ∧
        rel.cfield ∈ cdf.cols ∧ df' = fkFilter cdf pdf rel) := by
  by_cases ht : t = rel.child
  · cases hc : lookupDF d rel.child with
    | none =>
        rw [fkStep_eq_none_child d rel hc] at h
        exact Or.inl h
    | some cdf =>
      cases hp : lookupDF d rel.parent with
      | none =>
          rw [fkStep_eq_none_parent d rel cdf hc hp] at h
          exact Or.inl h
      | some pdf =>
        by_cases hpf : rel.pfield ∈ pdf.cols
        · by_cases hcf : rel.cfield ∈ cdf.cols
          · rw [fkStep_eq_active d rel cdf pdf hc hp hpf hcf] at h
            subst ht
            rw [lookupDF_updateDF_self, hc] at h
            simp only [Option.map_some'] at h
            exact Or.inr ⟨rfl, cdf, pdf, rfl, rfl, hpf, hcf, (Option.some_injective _ h).symm⟩
          · rw [fkStep_eq_no_cf d rel cdf pdf hc hp hpf hcf] at h
            exact Or.inl h
        · rw [fkStep_eq_no_pf d rel cdf pdf hc hp hpf] at h
          exact Or.inl h
  · rw [fkStep_lookup_ne d rel t ht] at h
    exact Or.inl h

/-- A relationship is settled in a snapshot when its cascade step changes
nothing there. -/
def Settled (d : Snap) (rel : FKRel) : Prop := fkStep d rel = d

/-- A relationship is settled as soon as, whenever its guards hold, the
child rows all satisfy the keep condition and the child index is dense. -/
theorem settled_of_conditions (d : Snap) (rel : FKRel)
    (h : ∀ cdf pdf, lookupDF d rel.child = some cdf → lookupDF d rel.parent = some pdf →
      rel.pfield ∈ pdf.cols → rel.cfield ∈ cdf.cols →
      (∀ r ∈ cdf.rows, keepRow (parentKeys pdf rel.pfield) rel.cfield r.2 = true)
        ∧ reindex cdf.rows = cdf.rows) :
    Settled d rel := by
  unfold Settled
  cases hc : lookupDF d rel.child with
  | none => exact fkStep_eq_none_child d rel hc
  | some cdf =>
    cases hp : lookupDF d rel.parent with
    | none => exact fkStep_eq_none_parent d rel cdf hc hp
    | some pdf =>
      by_cases hpf : rel.pfield ∈ pdf.cols
      · by_cases hcf : rel.cfield ∈ cdf.cols
        · rw [fkStep_eq_active d rel cdf pdf hc hp hpf hcf]
          obtain ⟨hall, hre⟩ := h cdf pdf hc hp hpf hcf
          have hfe : fkFilter cdf pdf rel = cdf := by
            unfold fkFilter
            rw [List.filter_eq_self.mpr hall, hre]
          rw [hfe]
          exact updateDF_self_id d rel.child cdf hc
        · exact fkStep_eq_no_cf d rel cdf pdf hc hp hpf hcf
      · exact fkStep_eq_no_pf d rel cdf pdf hc hp hpf

/-- Conversely, in a settled snapshot whose guards hold, every child row
satisfies the keep condition and the child index is dense. -/
theorem settled_inv (d : Snap) (rel : FKRel) (cdf pdf : DF) (hs : Settled d rel)
    (hc : lookupDF d rel.child = some cdf) (hp : lookupDF d rel.parent = some pdf)
    (hpf : rel.pfield ∈ pdf.cols) (hcf : rel.cfield ∈ cdf.cols) :
    (∀ r ∈ cdf.rows, keepRow (parentKeys pdf rel.pfield) rel.cfield r.2 = true)
      ∧ reindex cdf.rows = cdf.rows := by
  have hstep : fkStep d rel = updateDF d rel.child (fkFilter cdf pdf rel) :=
    fkStep_eq_active d rel cdf pdf hc hp hpf hcf
  have hs2 : updateDF d rel.child (fkFilter cdf pdf rel) = d := hstep ▸ hs
  have hfe : fkFilter cdf pdf rel = cdf := updateDF_eq_self_inv d rel.child _ cdf hs2 hc
  have hrows : reindex (cdf.rows.filter
      (fun r => keepRow (parentKeys pdf rel.pfield) rel.cfield r.2)) = cdf.rows :=
    congrArg DF.rows hfe
  have hlen : (cdf.rows.filter
      (fun r => keepRow (parentKeys pdf rel.pfield) rel.cfield r.2)).length
        = cdf.rows.length := by
    have h := congrArg List.length hrows
    rw [length_reindex] at h
    exact h
  have hall : ∀ r ∈ cdf.rows,
      keepRow (parentKeys pdf rel.pfield) rel.cfield r.2 = true := by
    rw [← List.countP_eq_length_filter] at hlen
    exact List.countP_eq_length.mp hlen
  refine ⟨hall, ?_⟩
  rw [List.filter_eq_self.mpr hall] at hrows
  exact hrows

/-- A relationship whose child and parent differ is settled immediately
after its own cascade step. -/
theorem settled_fkStep (d : Snap) (rel : FKRel) (hne : rel.child ≠ rel.parent) :
    Settled (fkStep d rel) rel := by
  apply settled_of_conditions
  intro cdf' pdf' hc' hp' hpf' hcf'
  have hpd : lookupDF d rel.parent = some pdf' := by
    rw [← fkStep_lookup_ne d rel rel.parent (fun he => hne he.symm)]
    exact hp'
  cases hc : lookupDF d rel.child with
  | none =>
      rw [fkStep_eq_none_child d rel hc, hc] at hc'
      cases hc'
  | some cdf =>
    have hstep : fkStep d rel = updateDF d rel.child (fkFilter cdf pdf' rel) :=
      fkStep_eq_active d rel cdf pdf' hc hpd hpf' (by
        have hinv := fkStep_lookup_inv d rel rel.child cdf' hc'
        rcases hinv with hcd | ⟨-, cdf2, pdf2, hcd2, -, -, hcf2, hdf⟩
        · rw [hcd] at hc
          have : cdf' = cdf := Option.some_injective _ hc
          rw [← this]
          exact hcf'
        · rw [hcd2] at hc
          have : cdf2 = cdf := Option.some_injective _ hc
          rw [← this]
          exact hcf2)
    rw [hstep] at hc'
    rw [lookupDF_updateDF_self, hc] at hc'
    simp only [Option.map_some'] at hc'
    have hcdf' : cdf' = fkFilter cdf pdf' rel := (Option.some_injective _ hc').symm
    constructor
    · intro r hr
      rw [hcdf'] at hr
      have h2 : r.2 ∈ (cdf.rows.filter
          (fun s => keepRow (parentKeys pdf' rel.pfield) rel.cfield s.2)).map Prod.snd :=
        snd_mem_of_mem_reindex _ r hr
      rw [List.mem_map] at h2
      obtain ⟨s, hsmem, hs2⟩ := h2
      rw [List.mem_filter] at hsmem
      rw [← hs2]
      exact hsmem.2
    · rw [hcdf']
      exact reindex_reindex _

/-- Settledness of a relationship is preserved by the cascade step of any
relationship whose child is not the first relationship's parent. -/
theorem settled_preserved (d : Snap) (rel rel2 : FKRel) (hs : Settled d rel)
    (hpar : rel.parent ≠ rel2.child) : Settled (fkStep d rel2) rel := by
  apply settled_of_conditions
  intro cdf' pdf' hc' hp' hpf' hcf'
  have hpd : lookupDF d rel.parent = some pdf' := by
    rw [← fkStep_lookup_ne d rel2 rel.parent hpar]
    exact hp'
  have hinv := fkStep_lookup_inv d rel2 rel.child cdf' hc'
  rcases hinv with hcd | ⟨hteq, cdf2, pdf2, hcd2, hpd2, hpf2, hcf2, hdf⟩
  · exact settled_inv d rel cdf' pdf' hs hcd hpd hpf' hcf'
  · have hcd : lookupDF d rel.child = some cdf2 := by
      rw [hteq]
      exact hcd2
    have hcols : cdf'.cols = cdf2.cols := by
      rw [hdf]
      rfl
    have hcf0 : rel.cfield ∈ cdf2.cols := by
      rw [← hcols]
      exact hcf'
    obtain ⟨hall, hre⟩ := settled_inv d rel cdf2 pdf' hs hcd hpd hpf' hcf0
    constructor
    · intro r hr
      rw [hdf] at hr
      have h2 : r.2 ∈ (cdf2.rows.filter
          (fun s => keepRow (parentKeys pdf2 rel2.pfield) rel2.cfield s.2)).map Prod.snd :=
        snd_mem_of_mem_reindex _ r hr
      rw [List.mem_map] at h2
      obtain ⟨s, hsmem, hs2⟩ := h2
      rw [List.mem_filter] at hsmem
      rw [← hs2]
      exact hall s hsmem.1
    · rw [hdf]
      exact reindex_reindex _

/-- After the full single-pass cascade, every declared relationship is
settled: by the declared processing order, no later step removes rows from
an earlier relationship's parent table. -/
theorem settled_all (d : Snap) (rel : FKRel) (hrel : rel ∈ FOREIGN_KEY_RELATIONSHIPS) :
    Settled (handle_foreign_key_dependencies d) rel := by
  have hunf : handle_foreign_key_dependencies d =
      fkStep (fkStep (fkStep (fkStep (fkStep (fkStep (fkStep d fkRel1) fkRel2) fkRel3)
        fkRel4) fkRel5) fkRel6) fkRel7 := rfl
  rw [hunf]
  simp only [FOREIGN_KEY_RELATIONSHIPS, List.mem_cons, List.not_mem_nil, or_false] at hrel
  rcases hrel with rfl | rfl | rfl | rfl | rfl | rfl | rfl
  · exact settled_preserved _ _ fkRel7 (settled_preserved _ _ fkRel6 (settled_preserved _ _
      fkRel5 (settled_preserved _ _ fkRel4 (settled_preserved _ _ fkRel3 (settled_preserved
      _ _ fkRel2 (settled_fkStep _ fkRel1 (by decide)) (by decide)) (by decide)) (by decide))
      (by decide)) (by decide)) (by decide)
  · exact settled_preserved _ _ fkRel7 (settled_preserved _ _ fkRel6 (settled_preserved _ _
      fkRel5 (settled_preserved _ _ fkRel4 (settled_preserved _ _ fkRel3 (settled_fkStep _
      fkRel2 (by decide)) (by decide)) (by decide)) (by decide)) (by decide)) (by decide)
  · exact settled_preserved _ _ fkRel7 (settled_preserved _ _ fkRel6 (settled_preserved _ _
      fkRel5 (settled_preserved _ _ fkRel4 (settled_fkStep _ fkRel3 (by decide))
      (by decide)) (by decide)) (by decide)) (by decide)
  · exact settled_preserved _ _ fkRel7 (settled_preserved _ _ fkRel6 (settled_preserved _ _
      fkRel5 (settled_fkStep _ fkRel4 (by decide)) (by decide)) (by decide)) (by decide)
  · exact settled_preserved _ _ fkRel7 (settled_preserved _ _ fkRel6 (settled_fkStep _
      fkRel5 (by decide)) (by decide)) (by decide)
  · exact settled_preserved _ _ fkRel7 (settled_fkStep _ fkRel6 (by decide)) (by decide)
  · exact settled_fkStep _ fkRel7 (by decide)

/-- Folding the cascade over settled relationships changes nothing. -/
theorem foldl_fkStep_settled (d : Snap) (l : List FKRel)
    (h : ∀ rel ∈ l, fkStep d rel = d) : l.foldl fkStep d = d := by
  induction l with
  | nil => rfl
  | cons r l ih =>
    rw [List.foldl_cons, h r (List.mem_cons_self r l)]
    exact ih (fun rel hrel => h rel (List.mem_cons_of_mem r hrel))

/-- The single-pass cascade is idempotent. -/
theorem hfkd_idem (d : Snap) :
    handle_foreign_key_dependencies (handle_foreign_key_dependencies d)
      = handle_foreign_key_dependencies d :=
  foldl_fkStep_settled (handle_foreign_key_dependencies d) FOREIGN_KEY_RELATIONSHIPS
    (fun rel hrel => settled_all d rel hrel)

/-- The FK post-condition for one relationship: whenever its tables and
fields are present, every surviving child row has a null foreign key or one
that occurs in the surviving parent table's key column. -/
def fkSatisfied (d : Snap) (rel : FKRel) : Prop :=
  ∀ cdf pdf, lookupDF d rel.child = some cdf → lookupDF d rel.parent = some pdf →
    rel.pfield ∈ pdf.cols → rel.cfield ∈ cdf.cols →
    ∀ r ∈ cdf.rows, getField r.2 rel.cfield = Value.vnull ∨
      getField r.2 rel.cfield ∈ parentKeys pdf rel.pfield

/-- A settled relationship satisfies the FK post-condition. -/
theorem settled_fkSatisfied (d : Snap) (rel : FKRel) (hs : Settled d rel) :
    fkSatisfied d rel := by
  intro cdf pdf hc hp hpf hcf r hr
  obtain ⟨hall, -⟩ := settled_inv d rel cdf pdf hs hc hp hpf hcf
  have hk := hall r hr
  unfold keepRow at hk
  rw [Bool.or_eq_true, decide_eq_true_eq, decide_eq_true_eq] at hk
  exact hk

/-- C1: after `clean_dataframes_by_failed_rows` (whose final step is
`handle_foreign_key_dependencies`), every declared foreign-key relationship
whose tables and fields are present satisfies the FK post-condition: each
surviving child row has a null foreign key or a value occurring in the
surviving parent table's key column. -/
theorem fk_postcondition_after_cleaning (data : Snap) (failed : List (String × List Nat))
    (rel : FKRel) (hrel : rel ∈ FOREIGN_KEY_RELATIONSHIPS) :
    fkSatisfied (clean_dataframes_by_failed_rows data failed).1 rel :=
  settled_fkSatisfied _ rel (settled_all (cleanTables data failed) rel hrel)

/-- A snapshot with one matched and one orphaned face template. -/
def fkDemoSnap : Snap :=
  [(("customer"),
     { cols := [("customer_id")], rows := [(0, [(("customer_id"), Value.vnum 1)])] }),
   (("face_template"),
     { cols := [("customer_id")],
       rows := [(0, [(("customer_id"), Value.vnum 1)]),
                (1, [(("customer_id"), Value.vnum 2)])] })]

/-- Witness for C1: the FK post-condition holds for the face-template
relationship after cleaning a concrete snapshot containing an orphan. -/
theorem fk_postcondition_after_cleaning_witness :
    fkSatisfied (clean_dataframes_by_failed_rows fkDemoSnap []).1 fkRel1 :=
  fk_postcondition_after_cleaning fkDemoSnap [] fkRel1 (by decide)

/-- With an empty failing dict the per-table pass copies every table. -/
theorem cleanTables_nil_failed (data : Snap) : cleanTables data [] = data := by
  induction data with
  | nil => rfl
  | cons p rest ih =>
    unfold cleanTables at ih ⊢
    rw [List.map_cons, ih]
    rfl

/-- The cleaned tables are the cascade applied to the per-table pass. -/
theorem clean_dataframes_fst (data : Snap) (failed : List (String × List Nat)) :
    (clean_dataframes_by_failed_rows data failed).1
      = handle_foreign_key_dependencies (cleanTables data failed) := rfl

/-- C5: cleaning is idempotent on an already-cleaned dataset — applying
`clean_dataframes_by_failed_rows` with empty failing sets to the tables it
produced returns those tables unchanged. -/
theorem clean_idempotent_on_cleaned (data : Snap) (failed : List (String × List Nat)) :
    (clean_dataframes_by_failed_rows
        (clean_dataframes_by_failed_rows data failed).1 []).1
      = (clean_dataframes_by_failed_rows data failed).1 := by
  rw [clean_dataframes_fst, clean_dataframes_fst, cleanTables_nil_failed]
  exact hfkd_idem (cleanTables data failed)

/-! ## C10: cleaning with absent identifiers -/

/-- Lookup of a table's summary in the cleaning summary dict. -/
def lookupTS (l : List (String × TableSummary)) (t : String) : Option TableSummary :=
  (l.find? (fun p => decide (p.1 = t))).map (fun p => p.2)

/-- Looking up a key in a keyed map of the snapshot applies the per-table
function to that key's table. -/
theorem find_map_keyed {β : Type} (F : String → DF → β) (data : Snap) (t : String) (df : DF)
    (hdf : lookupDF data t = some df) :
    ((data.map (fun p => (p.1, F p.1 p.2))).find? (fun p => decide (p.1 = t))).map
        (fun p => p.2) = some (F t df) := by
  induction data with
  | nil => simp [lookupDF] at hdf
  | cons p rest ih =>
    obtain ⟨p1, p2⟩ := p
    by_cases hpt : p1 = t
    · rw [lookupDF_cons_pos _ _ _ _ hpt] at hdf
      have h2 : p2 = df := Option.some_injective _ hdf
      subst hpt
      subst h2
      rw [List.map_cons, List.find?_cons_of_pos _ (by simp)]
      rfl
    · rw [lookupDF_cons_neg _ _ _ _ hpt] at hdf
      rw [List.map_cons, List.find?_cons_of_neg _ (by simpa using hpt)]
      exact ih hdf

/-- Re-indexing preserves the records. -/
theorem reindex_map_snd (rows : List (Nat × Row)) :
    (reindex rows).map Prod.snd = rows.map Prod.snd := by
  unfold reindex
  rw [List.enum_map_snd]

/-- A filter and its complement partition a list's length. -/
theorem length_filter_not_add (l : List (Nat × Row)) (p : Nat × Row → Bool) :
    (l.filter p).length + (l.filter (fun a => !(p a))).length = l.length := by
  induction l with
  | nil => rfl
  | cons a l ih =>
    by_cases h : p a <;> simp [List.filter_cons, h, ← ih] <;> omega

/-- C10: `clean_dataframes_by_failed_rows` accepts failing lists containing
identifiers absent from the table; the cleaned table keeps exactly the rows
whose identifier is not in the list, while the summary's `removed_count` is
the length of the supplied list and `final_count` the surviving row count —
so when an absent identifier is supplied (and the table's identifiers are
distinct, as pandas indices are here), `removed_count` exceeds
`original_count - final_count`. -/
theorem clean_removed_count_overcounts (data : Snap) (failed : List (String × List Nat))
    (t : String) (df : DF) (idxs : List Nat)
    (hdf : lookupDF data t = some df) (hfl : lookupFailed failed t = some idxs)
    (hnd : (df.rows.map Prod.fst).Nodup) :
    (lookupDF (cleanTables data failed) t = some (dropFailed df idxs))
    ∧ ((dropFailed df idxs).rows.map Prod.snd
        = (df.rows.filter (fun r => decide (r.1 ∉ idxs))).map Prod.snd)
    ∧ (lookupTS (clean_dataframes_by_failed_rows data failed).2 t
        = some (cleanSummaryFor data failed t df))
    ∧ (cleanSummaryFor data failed t df).original_count = df.rows.length
    ∧ (cleanSummaryFor data failed t df).removed_count = idxs.length
    ∧ (cleanSummaryFor data failed t df).final_count
        = (df.rows.filter (fun r => decide (r.1 ∉ idxs))).length
    ∧ ((∃ j ∈ idxs, j ∉ df.rows.map Prod.fst) →
        (cleanSummaryFor data failed t df).original_count
            - (cleanSummaryFor data failed t df).final_count
          < (cleanSummaryFor data failed t df).removed_count) := by
  have hclean : lookupDF (cleanTables data failed) t = some (cleanTableFor failed t df) :=
    find_map_keyed (cleanTableFor failed) data t df hdf
  have hctf : cleanTableFor failed t df = dropFailed df idxs := by
    unfold cleanTableFor
    rw [hfl]
  have hsum : lookupTS (clean_dataframes_by_failed_rows data failed).2 t
      = some (cleanSummaryFor data failed t df) :=
    find_map_keyed (cleanSummaryFor data failed) data t df hdf
  have horig : (cleanSummaryFor data failed t df).original_count = df.rows.length := rfl
  have hrem : (cleanSummaryFor data failed t df).removed_count = idxs.length := by
    unfold cleanSummaryFor
    rw [hfl]
  have hfin : (cleanSummaryFor data failed t df).final_count
      = (df.rows.filter (fun r => decide (r.1 ∉ idxs))).length := by
    unfold cleanSummaryFor
    rw [hfl]
    simp only
    unfold dropFailed
    exact length_reindex _
  refine ⟨hctf ▸ hclean, ?_, hsum, horig, hrem, hfin, ?_⟩
  · unfold dropFailed
    exact reindex_map_snd _
  · rintro ⟨j, hj, hjn⟩
    rw [horig, hrem, hfin]
    have hpart := length_filter_not_add df.rows (fun r => decide (r.1 ∈ idxs))
    have hcompl : (df.rows.filter (fun a => !(decide (a.1 ∈ idxs)))).length
        = (df.rows.filter (fun r => decide (r.1 ∉ idxs))).length := by
      congr 1
      apply List.filter_congr
      intro x _
      simp
    have hmapf : (df.rows.map Prod.fst).filter (fun i => decide (i ∈ idxs))
        = (df.rows.filter (fun r => decide (r.1 ∈ idxs))).map Prod.fst := by
      rw [List.filter_map]
      rfl
    have hlt : ((df.rows.map Prod.fst).filter (fun i => decide (i ∈ idxs))).length
        < idxs.length := by
      have hfnd : ((df.rows.map Prod.fst).filter (fun i => decide (i ∈ idxs))).Nodup :=
        hnd.filter _
      have hcard : ((df.rows.map Prod.fst).filter
          (fun i => decide (i ∈ idxs))).toFinset.card
          = ((df.rows.map Prod.fst).filter (fun i => decide (i ∈ idxs))).length :=
        List.toFinset_card_of_nodup hfnd
      have hsub : ((df.rows.map Prod.fst).filter
          (fun i => decide (i ∈ idxs))).toFinset ⊆ idxs.toFinset := by
        intro x hx
        rw [List.mem_toFinset, List.mem_filter, decide_eq_true_eq] at hx
        rw [List.mem_toFinset]
        exact hx.2
      have hjB : j ∈ idxs.toFinset := List.mem_toFinset.mpr hj
      have hjA : j ∉ ((df.rows.map Prod.fst).filter
          (fun i => decide (i ∈ idxs))).toFinset := by
        rw [List.mem_toFinset, List.mem_filter]
        rintro ⟨hmem, -⟩
        exact hjn hmem
      have hcards : ((df.rows.map Prod.fst).filter
          (fun i => decide (i ∈ idxs))).toFinset.card < idxs.toFinset.card :=
        Finset.card_lt_card ((Finset.ssubset_iff_of_subset hsub).mpr ⟨j, hjB, hjA⟩)
      calc ((df.rows.map Prod.fst).filter (fun i => decide (i ∈ idxs))).length
          = ((df.rows.map Prod.fst).filter
              (fun i => decide (i ∈ idxs))).toFinset.card := hcard.symm
        _ < idxs.toFinset.card := hcards
        _ ≤ idxs.length := List.toFinset_card_le idxs
    have hmlen : ((df.rows.map Prod.fst).filter (fun i => decide (i ∈ idxs))).length
        = (df.rows.filter (fun r => decide (r.1 ∈ idxs))).length := by
      rw [hmapf, List.length_map]
    omega

/-- A table whose failing list names one present and one absent row. -/
def c10DemoDF : DF :=
  { cols := [("customer_id")],
    rows := [(0, [(("customer_id"), Value.vnum 1)]),
             (1, [(("customer_id"), Value.vnum 2)])] }

/-- Demonstration snapshot for cleaning with absent identifiers. -/
def c10DemoSnap : Snap := [(("customer"), c10DemoDF)]

/-- Witness for C10: dropping `[1, 5]` from a two-row table (row 5 absent)
removes one row but reports `removed_count = 2 > 2 - 1`. -/
theorem clean_removed_count_overcounts_witness :
    (cleanSummaryFor c10DemoSnap [(("customer"), [1, 5])] ("customer") c10DemoDF).removed_count
        = 2
    ∧ (cleanSummaryFor c10DemoSnap [(("customer"), [1, 5])] ("customer")
        c10DemoDF).original_count
        - (cleanSummaryFor c10DemoSnap [(("customer"), [1, 5])] ("customer")
            c10DemoDF).final_count
      < (cleanSummaryFor c10DemoSnap [(("customer"), [1, 5])] ("customer")
          c10DemoDF).removed_count := by
  have h := clean_removed_count_overcounts c10DemoSnap [(("customer"), [1, 5])]
    ("customer") c10DemoDF [1, 5] (by decide) (by decide) (by decide)
  refine ⟨?_, h.2.2.2.2.2.2 ⟨5, by decide, by decide⟩⟩
  rw [h.2.2.2.2.1]
  rfl

/-! ## Business-rule checks -/

/-- Comparison of a cell against a numeric threshold: only a numeric cell
at or above the threshold satisfies it (a NaN comparison is False in
pandas). -/
def valueGe (v : Value) (c : Int) : Bool :=
  match v with
  | Value.vnum n => decide (c ≤ n)
  | _ => false

/-- `STRONG_AUTH_METHODS = ['PIN_OTP', 'PIN_OTP_Biometric']`. -/
def STRONG_AUTH_METHODS : List Value :=
  [Value.vstr ("PIN_OTP"), Value.vstr ("PIN_OTP_Biometric")]

/-- The transfer/payment transaction types the monetary rules apply to
(the inline list `['Internal_Transfer', 'External_Transfer',
'Bill_Payment']` of the high-value and daily checks). -/
def TRANSFER_PAYMENT_TYPES : List Value :=
  [Value.vstr ("Internal_Transfer"), Value.vstr ("External_Transfer"),
   Value.vstr ("Bill_Payment")]

/-- The `high_value_mask` of `check_high_value_transaction_auth`: amount at
or above 10,000,000, currency VND, and a transfer/payment type. -/
def highValueRow (row : Row) : Bool :=
  valueGe (getField row ("amount")) 10000000
    && decide (getField row ("currency") = Value.vstr ("VND"))
    && decide (getField row ("transaction_type") ∈ TRANSFER_PAYMENT_TYPES)

/-- `check_high_value_transaction_auth`: flags the high-value transfer
rows whose authentication method is not strong; SKIP when the transaction
table is absent. -/
def check_high_value_transaction_auth (data : Snap) : CheckResult :=
  match lookupDF data ("transaction") with
  | none =>
      { status := Status.SKIP, failed_rows := [],
        reason := some ("No transaction data available") }
  | some df =>
      let violations := (df.rows.filter (fun r => highValueRow r.2)).filter
        (fun r => decide (getField r.2 ("authentication_method") ∉ STRONG_AUTH_METHODS))
      { status := if violations = [] then Status.PASS else Status.FAIL,
        failed_rows :=
          if violations = [] then []
          else [(("transaction"), (violations.map (fun r => r.1)).toFinset)],
        reason := none }

/-- `check_device_verification_requirement`: flags devices that are active
but untrusted; SKIP when the device table is absent. -/
def check_device_verification_requirement (data : Snap) : CheckResult :=
  match lookupDF data ("customer_device") with
  | none =>
      { status := Status.SKIP, failed_rows := [],
        reason := some ("No customer device data available") }
  | some df =>
      let violations := df.rows.filter (fun r =>
        decide (getField r.2 ("is_trusted") = Value.vbool false)
          && decide (getField r.2 ("status") = Value.vstr ("Active")))
      { status := if violations = [] then Status.PASS else Status.FAIL,
        failed_rows :=
          if violations = [] then []
          else [(("customer_device"), (violations.map (fun r => r.1)).toFinset)],
        reason := none }

/-- `pd.to_datetime(...).dt.date` on an ISO `YYYY-MM-DD HH:MM:SS` timestamp
string: the date prefix; null (NaT) otherwise. -/
def dateOf : Value → Value
  | Value.vstr s => Value.vstr (s.take 10)
  | _ => Value.vnull

/-- The numeric contribution of a cell to a pandas `sum`, which skips
NaN. -/
def valueNum : Value → Int
  | Value.vnum n => n
  | _ => 0

/-- Python truthiness of a cell (the `if method` filter). -/
def valueTruthy : Value → Bool
  | Value.vnull => false
  | Value.vstr s => decide (s ≠ (""))
  | Value.vnum n => decide (n ≠ 0)
  | Value.vbool b => b

/-- Left merge of the transaction records with
`account[['account_id', 'customer_id']]` on `account_id`: each transaction
record is paired with the customer of every matching account record, or
with a null customer when no account matches. -/
def mergeCustomer (trows arows : List Row) : List Row :=
  trows.flatMap (fun tr =>
    match arows.filter (fun ar =>
        decide (getField ar ("account_id") = getField tr ("account_id"))) with
    | [] => [tr ++ [(("customer_id"), Value.vnull)]]
    | ms => ms.map (fun ar => tr ++ [(("customer_id"), getField ar ("customer_id"))]))

/-- `check_daily_transaction_limit_auth`: join transactions to accounts for
the customer, keep completed VND transfer/payment rows, group by customer
and calendar day (pandas drops null group keys), and flag every
customer-day whose total reaches 20,000,000 without any strong-auth
transaction.  Violations are reported per customer-day only: `failed_rows`
stays empty. -/
def check_daily_transaction_limit_auth (data : Snap) : CheckResult :=
  match lookupDF data ("transaction") with
  | none =>
      { status := Status.SKIP, failed_rows := [],
        reason := some ("Missing transaction or bank_account data") }
  | some tdf =>
    match lookupDF data ("bank_account") with
    | none =>
        { status := Status.SKIP, failed_rows := [],
          reason := some ("Missing transaction or bank_account data") }
    | some adf =>
      let merged := mergeCustomer (tdf.rows.map Prod.snd) (adf.rows.map Prod.snd)
      let vnd := merged.filter (fun row =>
        decide (getField row ("currency") = Value.vstr ("VND"))
          && decide (getField row ("status") = Value.vstr ("Completed"))
          && decide (getField row ("transaction_type") ∈ TRANSFER_PAYMENT_TYPES))
      let keyed : List (Value × Value × Row) := vnd.map (fun row =>
        (getField row ("customer_id"), dateOf (getField row ("created_at")), row))
      let keys : List (Value × Value) := (keyed.map (fun x => (x.1, x.2.1))).dedup.filter
        (fun k => decide (k.1 ≠ Value.vnull) && decide (k.2 ≠ Value.vnull))
      let violations : List (Value × Value) := keys.filter (fun k =>
        let grp := keyed.filter (fun x => decide (x.1 = k.1) && decide (x.2.1 = k.2))
        let total := (grp.map (fun x => valueNum (getField x.2.2 ("amount")))).sum
        let auths := (grp.map (fun x => getField x.2.2 ("authentication_method"))).filter
          (fun m => decide (m ≠ Value.vnull))
        decide ((20000000 : Int) ≤ total)
          && !(auths.any (fun m => valueTruthy m && decide (m ∈ STRONG_AUTH_METHODS))))
      { status := if violations = [] then Status.PASS else Status.FAIL,
        failed_rows := [], reason := none }

/-- The number of violation records one transaction row contributes in
`check_transaction_type_constraints` (a bill payment can contribute
two). -/
def txTypeViolationCount (row : Row) : Nat :=
  if getField row ("transaction_type") = Value.vstr ("Internal_Transfer") then
    (if getField row ("recipient_account_number") = Value.vnull ∨
        ¬ getField row ("recipient_bank_code") = Value.vnull then 1 else 0)
  else if getField row ("transaction_type") = Value.vstr ("External_Transfer") then
    (if getField row ("recipient_account_number") = Value.vnull ∨
        getField row ("recipient_bank_code") = Value.vnull then 1 else 0)
  else if getField row ("transaction_type") = Value.vstr ("Bill_Payment") then
    (if ¬ getField row ("recipient_account_number") = Value.vnull ∨
        ¬ getField row ("recipient_bank_code") = Value.vnull then 1 else 0)
      + (if getField row ("service_provider_code") = Value.vnull ∨
            getField row ("bill_number") = Value.vnull then 1 else 0)
  else 0

/-- `check_transaction_type_constraints`: FAIL as soon as any row violates
its subtype's field constraints; violations are reported per row in the
issue list only — `failed_rows` stays empty. -/
def check_transaction_type_constraints (data : Snap) : CheckResult :=
  match lookupDF data ("transaction") with
  | none =>
      { status := Status.SKIP, failed_rows := [],
        reason := some ("No transaction data available") }
  | some df =>
      let cnt := (df.rows.map (fun r => txTypeViolationCount r.2)).sum
      { status := if cnt = 0 then Status.PASS else Status.FAIL,
        failed_rows := [], reason := none }

/-- The high-value mask holds exactly when the amount is at or above the
threshold, the currency is VND and the type is a transfer/payment. -/
theorem highValueRow_iff (row : Row) :
    highValueRow row = true ↔ valueGe (getField row ("amount")) 10000000 = true ∧
      getField row ("currency") = Value.vstr ("VND") ∧
      getField row ("transaction_type") ∈ TRANSFER_PAYMENT_TYPES := by
  unfold highValueRow
  simp [Bool.and_eq_true, decide_eq_true_eq, and_assoc]

/-- C6: for a transaction table carrying the four columns the check reads
(without them the pandas code would raise rather than report), a row index
is in `failed_rows['transaction']` of the high-value check iff the row's
amount is at or above 10,000,000, its currency is VND, its transaction
type is Internal_Transfer, External_Transfer or Bill_Payment, and its
authentication method is neither PIN_OTP nor PIN_OTP_Biometric. -/
theorem check_high_value_flags_iff (data : Snap) (df : DF)
    (hdf : lookupDF data ("transaction") = some df)
    (hc1 : ("amount" : String) ∈ df.cols) (hc2 : ("currency" : String) ∈ df.cols)
    (hc3 : ("transaction_type" : String) ∈ df.cols)
    (hc4 : ("authentication_method" : String) ∈ df.cols) :
    ∀ i : Nat, i ∈ lookupFS (check_high_value_transaction_auth data).failed_rows
        ("transaction") ↔
      ∃ r ∈ df.rows, r.1 = i ∧ valueGe (getField r.2 ("amount")) 10000000 = true ∧
        getField r.2 ("currency") = Value.vstr ("VND") ∧
        getField r.2 ("transaction_type") ∈ TRANSFER_PAYMENT_TYPES ∧
        getField r.2 ("authentication_method") ∉ STRONG_AUTH_METHODS := by
  intro i
  unfold check_high_value_transaction_auth
  simp only [hdf]
  by_cases he : (df.rows.filter (fun r => highValueRow r.2)).filter
      (fun r => decide (getField r.2 ("authentication_method") ∉ STRONG_AUTH_METHODS)) = []
  · rw [if_pos he]
    constructor
    · intro hmem
      exact absurd hmem (by simp [lookupFS])
    · rintro ⟨r, hr, hi, h1, h2, h3, h4⟩
      exfalso
      have hrin : r ∈ (df.rows.filter (fun r => highValueRow r.2)).filter
          (fun r => decide (getField r.2 ("authentication_method")
            ∉ STRONG_AUTH_METHODS)) := by
        rw [List.mem_filter, List.mem_filter]
        refine ⟨⟨hr, ?_⟩, by simpa using h4⟩
        rw [highValueRow_iff]
        exact ⟨h1, h2, h3⟩
      rw [he] at hrin
      exact absurd hrin (List.not_mem_nil r)
  · rw [if_neg he]
    rw [lookupFS_cons_pos _ _ _ _ rfl]
    rw [List.mem_toFinset, List.mem_map]
    constructor
    · rintro ⟨r, hrv, hi⟩
      rw [List.mem_filter, List.mem_filter] at hrv
      obtain ⟨⟨hr, hhv⟩, hauth⟩ := hrv
      rw [highValueRow_iff] at hhv
      exact ⟨r, hr, hi, hhv.1, hhv.2.1, hhv.2.2, by simpa using hauth⟩
    · rintro ⟨r, hr, hi, h1, h2, h3, h4⟩
      refine ⟨r, ?_, hi⟩
      rw [List.mem_filter, List.mem_filter]
      refine ⟨⟨hr, ?_⟩, by simpa using h4⟩
      rw [highValueRow_iff]
      exact ⟨h1, h2, h3⟩

/-- A transaction table with a 15,000,000 VND internal transfer
authenticated by PIN (row 0) and by PIN_OTP (row 1). -/
def hvDemoDF : DF :=
  { cols := [("amount"), ("currency"), ("transaction_type"), ("authentication_method")],
    rows := [(0, [(("amount"), Value.vnum 15000000), (("currency"), Value.vstr ("VND")),
                  (("transaction_type"), Value.vstr ("Internal_Transfer")),
                  (("authentication_method"), Value.vstr ("PIN"))]),
             (1, [(("amount"), Value.vnum 15000000), (("currency"), Value.vstr ("VND")),
                  (("transaction_type"), Value.vstr ("Internal_Transfer")),
                  (("authentication_method"), Value.vstr ("PIN_OTP"))])] }

/-- Demonstration snapshot for the high-value check. -/
def hvDemoSnap : Snap := [(("transaction"), hvDemoDF)]

/-- Witness for C6 (Scenario C): the PIN row is flagged, the PIN_OTP row is
not, and the check FAILs. -/
theorem check_high_value_flags_iff_witness :
    (0 : Nat) ∈ lookupFS (check_high_value_transaction_auth hvDemoSnap).failed_rows
        ("transaction")
    ∧ (1 : Nat) ∉ lookupFS (check_high_value_transaction_auth hvDemoSnap).failed_rows
        ("transaction")
    ∧ (check_high_value_transaction_auth hvDemoSnap).status = Status.FAIL := by
  have h := check_high_value_flags_iff hvDemoSnap hvDemoDF (by decide) (by decide)
    (by decide) (by decide) (by decide)
  refine ⟨(h 0).mpr (by decide), ?_, by decide⟩
  intro hmem
  have h2 := (h 1).mp hmem
  revert h2
  decide

/-- Two completed VND internal transfers totalling 23,000,000 on one day
for one customer, both PIN-authenticated: a daily-limit violation. -/
def dailyDemoSnap : Snap :=
  [(("transaction"),
     { cols := [("account_id"), ("transaction_type"), ("amount"), ("currency"),
                ("authentication_method"), ("status"), ("created_at")],
       rows := [(0, [(("account_id"), Value.vnum 1),
                     (("transaction_type"), Value.vstr ("Internal_Transfer")),
                     (("amount"), Value.vnum 15000000),
                     (("currency"), Value.vstr ("VND")),
                     (("authentication_method"), Value.vstr ("PIN")),
                     (("status"), Value.vstr ("Completed")),
                     (("created_at"), Value.vstr ("2024-01-01 10:00:00"))]),
                (1, [(("account_id"), Value.vnum 1),
                     (("transaction_type"), Value.vstr ("Internal_Transfer")),
                     (("amount"), Value.vnum 8000000),
                     (("currency"), Value.vstr ("VND")),
                     (("authentication_method"), Value.vstr ("PIN")),
                     (("status"), Value.vstr ("Completed")),
                     (("created_at"), Value.vstr ("2024-01-01 14:30:00"))])] }),
   (("bank_account"),
     { cols := [("account_id"), ("customer_id")],
       rows := [(0, [(("account_id"), Value.vnum 1), (("customer_id"), Value.vnum 7)])] })]

/-- An internal transfer with a null recipient account number: a subtype
field-constraint violation. -/
def ttDemoSnap : Snap :=
  [(("transaction"),
    { cols := [("transaction_type"), ("recipient_account_number")],
      rows := [(0, [(("transaction_type"), Value.vstr ("Internal_Transfer"))])] })]

/-- C8: the daily-aggregate strong-auth check and the transaction-subtype
field-constraint check contribute no row identifiers to cleaning: on every
input their `failed_rows` mapping is empty, so appending them to any set of
check results leaves every table's aggregated failing set unchanged — even
on concrete inputs where each check's status is FAIL. -/
theorem daily_and_subtype_checks_feed_no_rows :
    (∀ data : Snap, (check_daily_transaction_limit_auth data).failed_rows = []
      ∧ (check_transaction_type_constraints data).failed_rows = [])
    ∧ (∀ (others : List CheckResult) (data : Snap) (t : String),
        aggregate_failed_rows (others ++
          [check_daily_transaction_limit_auth data,
           check_transaction_type_constraints data]) t
          = aggregate_failed_rows others t)
    ∧ (check_daily_transaction_limit_auth dailyDemoSnap).status = Status.FAIL
    ∧ (check_transaction_type_constraints ttDemoSnap).status = Status.FAIL := by
  have hfr : ∀ data : Snap, (check_daily_transaction_limit_auth data).failed_rows = []
      ∧ (check_transaction_type_constraints data).failed_rows = [] := by
    intro data
    constructor
    · unfold check_daily_transaction_limit_auth
      cases lookupDF data ("transaction") with
      | none => rfl
      | some tdf =>
        cases lookupDF data ("bank_account") with
        | none => rfl
        | some adf => rfl
    · unfold check_transaction_type_constraints
      cases lookupDF data ("transaction") with
      | none => rfl
      | some df => rfl
  refine ⟨hfr, ?_, by decide, by decide⟩
  intro others data t
  unfold aggregate_failed_rows
  rw [List.foldl_append, List.foldl_cons, List.foldl_cons, List.foldl_nil]
  rw [(hfr data).1, (hfr data).2]
  simp [lookupFS]

/-- Counterexample to C7 as stated: on the empty snapshot every rule's
required input is absent, yet the structural required-field check reports
PASS, not SKIP — only the business rules are guarded by SKIP returns. -/
theorem structural_check_pass_not_skip_on_absent_input :
    (check_null_missing_values []).status = Status.PASS ∧ Status.PASS ≠ Status.SKIP :=
  ⟨rfl, by decide⟩

/-- C7 as amended: each of the four business rules returns SKIP with its
stated reason (and no failing rows) when a table it requires is absent from
the snapshot; the structural checks are not guarded this way — with their
configured tables absent they skip silently and report PASS. -/
theorem business_rules_skip_on_missing_tables :
    (∀ data : Snap, lookupDF data ("transaction") = none →
      (check_high_value_transaction_auth data).status = Status.SKIP
        ∧ (check_high_value_transaction_auth data).reason
            = some ("No transaction data available")
        ∧ (check_high_value_transaction_auth data).failed_rows = [])
    ∧ (∀ data : Snap, lookupDF data ("customer_device") = none →
      (check_device_verification_requirement data).status = Status.SKIP
        ∧ (check_device_verification_requirement data).reason
            = some ("No customer device data available"))
    ∧ (∀ data : Snap, lookupDF data ("transaction") = none ∨
          lookupDF data ("bank_account") = none →
      (check_daily_transaction_limit_auth data).status = Status.SKIP
        ∧ (check_daily_transaction_limit_auth data).reason
            = some ("Missing transaction or bank_account data"))
    ∧ (∀ data : Snap, lookupDF data ("transaction") = none →
      (check_transaction_type_constraints data).status = Status.SKIP
        ∧ (check_transaction_type_constraints data).reason
            = some ("No transaction data available"))
    ∧ (∀ data : Snap, (∀ p ∈ data, cfgLookup REQUIRED_FIELDS p.1 = none) →
      (check_null_missing_values data).status = Status.PASS) := by
  refine ⟨?_, ?_, ?_, ?_, ?_⟩
  · intro data h
    unfold check_high_value_transaction_auth
    simp [h]
  · intro data h
    unfold check_device_verification_requirement
    simp [h]
  · intro data h
    unfold check_daily_transaction_limit_auth
    rcases h with h | h
    · simp [h]
    · cases htx : lookupDF data ("transaction") with
      | none => simp [htx]
      | some tdf => simp [htx, h]
  · intro data h
    unfold check_transaction_type_constraints
    simp [h]
  · intro data h
    unfold check_null_missing_values
    have hany : data.any (fun p => decide (nullFailedSetT p.1 p.2 ≠ ∅)) = false := by
      rw [List.any_eq_false]
      intro p hp
      unfold nullFailedSetT
      rw [h p hp]
      simp
    simp [hany]
    intro x x1 hx
    unfold nullFailedSetT
    rw [h (x, x1) hx]

/-- Witness for the amended C7: all four business rules SKIP on the empty
snapshot. -/
theorem business_rules_skip_on_missing_tables_witness :
    (check_high_value_transaction_auth []).status = Status.SKIP
      ∧ (check_device_verification_requirement []).status = Status.SKIP
      ∧ (check_daily_transaction_limit_auth []).status = Status.SKIP
      ∧ (check_transaction_type_constraints []).status = Status.SKIP :=
  ⟨(business_rules_skip_on_missing_tables.1 [] rfl).1,
   (business_rules_skip_on_missing_tables.2.1 [] rfl).1,
   (business_rules_skip_on_missing_tables.2.2.1 [] (Or.inl rfl)).1,
   (business_rules_skip_on_missing_tables.2.2.2.1 [] rfl).1⟩

end BankingDQ
